import Mathlib

/-!
Verification of the dental-dicom-portal repository against its
natural-language specification.

The repository contains the React frontend (doctor and admin apps), the
PowerShell execution-channel scripts, and documentation.  The Remote
Session Orchestrator backend described by the specification is referenced
by the frontend (its HTTP endpoints) but its code is not part of the
repository; where a claim is decided by that missing backend, the
corresponding definition is modelled from the specification and marked
`Modelled from the spec:` in its doc comment.  All other definitions are
shallow embeddings of the source files they name.
-/

namespace DentalPortal

/-! ## Session status (admin frontend `types.ts`, spec section 4.2)

The admin client's `Session.status` union:
`'creating' | 'active' | 'idle_warning' | 'terminating' | 'terminated'`. -/

inductive SessionStatus where
  | creating
  | active
  | idle_warning
  | terminating
  | terminated
deriving DecidableEq, Repr

/-- Per spec section 4.2, `terminated` is the only terminal state. -/
def SessionStatus.isTerminal : SessionStatus → Bool
  | .terminated => true
  | _ => false

/-! ## The two client-side `Session` type definitions (C4)

`src/unnamed/part_004` holds two `types.ts` files.  The first declares
`status: 'creating' | 'active' | 'idle_warning' | 'terminating' | 'closed'`;
the second declares
`status: 'creating' | 'active' | 'idle_warning' | 'terminating' | 'terminated'`.
`src/unnamed/part_000` (admin `SessionsPage`) declares the badge map
`STATUS_VARIANT` keyed by status strings. -/

/-- Status strings of the first client `Session` interface
(`src/unnamed/part_004` lines 17-24). -/
def doctorSessionStatusNames : List String :=
  ["creating", "active", "idle_warning", "terminating", "closed"]

/-- Status strings of the second client `Session` interface
(`src/unnamed/part_004` lines 86-93). -/
def adminSessionStatusNames : List String :=
  ["creating", "active", "idle_warning", "terminating", "terminated"]

/-- The spec's non-virtual state set (spec section 4.2, excluding the
virtual `none` state). -/
def specSessionStatusNames : List String :=
  ["creating", "active", "idle_warning", "terminating", "terminated"]

/-- The admin status-badge map `STATUS_VARIANT`
(`src/unnamed/part_000` lines 18-24), as an association list. -/
def STATUS_VARIANT : List (String × String) :=
  [("active", "success"),
   ("idle_warning", "warning"),
   ("creating", "default"),
   ("terminating", "secondary"),
   ("terminated", "destructive")]

/-! ## Doctor launch-failure messages (C3)

`handleLaunch` in `src/frontend/src/pages/PatientsPage.tsx` (lines 43-62)
catches a failed `POST /api/sessions` and selects an error banner message
from the HTTP status of the response; a missing status (network failure /
no response) is `undefined`, modelled as `none`. -/

def apiUnavailableMessage : String :=
  "Session API not yet available (Issue #3). The sessions endpoint is pending implementation."

def sessionLimitMessage : String :=
  "Session limit reached. Please end an existing session before starting a new one."

def genericLaunchFailureMessage : String :=
  "Failed to launch session. Please try again."

/-- The message selection of `handleLaunch`'s catch block
(`PatientsPage.tsx` lines 50-58). -/
def handleLaunchMessage (status : Option Nat) : String :=
  if status = some 404 ∨ status = none then apiUnavailableMessage
  else if status = some 429 then sessionLimitMessage
  else genericLaunchFailureMessage

/-! ## Admin session-duration formatter (C9)

`formatDuration` in `src/unnamed/part_000` lines 10-16.  The source
computes `Math.floor((Date.now() - new Date(startedAt).getTime()) / 1000)`;
the claim restricts to a start timestamp not later than now, so the
elapsed milliseconds are a natural number and JavaScript's `Math.floor`,
`/` and `%` coincide with natural division and modulus. -/

def formatDuration (nowMs startedAtMs : Nat) : String :=
  let seconds := (nowMs - startedAtMs) / 1000
  let h := seconds / 3600
  let m := (seconds % 3600) / 60
  let s := seconds % 60
  if h > 0 then s!"{h}h {m}m"
  else if m > 0 then s!"{m}m {s}s"
  else s!"{s}s"

/-! ## Execution-channel PowerShell scripts (C7)

`src/unnamed/part_005` holds `create-session.ps1` and `launch-dtx.ps1`;
`src/backend/scripts/cleanup-session.ps1` is the third script.  The first
two build their returned identifier from `Get-Random -Minimum 10000
-Maximum 99999`; the draw is modelled as an explicit argument `rand`
(the value the random generator produced for that invocation).
`cleanup-session.ps1` writes the fixed status string `OK`. -/

/-- `create-session.ps1`: `$SessionId = "RDS-SESSION-" + (Get-Random ...)`,
then `Write-Output $SessionId`. -/
def createSessionScript (userName patientId : String) (rand : Nat) : String :=
  "RDS-SESSION-" ++ toString rand

/-- `launch-dtx.ps1`: `$ProcessId = "PID-" + (Get-Random ...)`,
then `Write-Output $ProcessId`. -/
def launchDtxScript (sessionId dicomPath : String) (rand : Nat) : String :=
  "PID-" ++ toString rand

/-- `cleanup-session.ps1`: `Write-Output "OK"`. -/
def cleanupSessionScript (sessionId : String) : String :=
  "OK"

/-! ## Audit-log filters and CSV export URL (C8)

`src/frontend/src/services/adminApi.ts`: the `AuditLogFilters` interface
(lines 71-79), `useAuditLogs` (lines 81-89) and `buildExportUrl`
(lines 91-98).  JavaScript field values are modelled by `JSVal`
(`undefined`, a string, or a number). -/

inductive JSVal where
  | undef
  | str (s : String)
  | num (n : Nat)
deriving DecidableEq, Repr

/-- An optional string field of the filters object as a JavaScript value. -/
def jsOfStr : Option String → JSVal
  | none => .undef
  | some s => .str s

/-- An optional numeric field of the filters object as a JavaScript value. -/
def jsOfNum : Option Nat → JSVal
  | none => .undef
  | some n => .num n

/-- `String(v)` as applied by `buildExportUrl` to an included value. -/
def jsToString : JSVal → String
  | .undef => "undefined"
  | .str s => s
  | .num n => toString n

/-- The `AuditLogFilters` interface: `user_id`, `action_type`,
`resource_type`, `date_from`, `date_to` are optional strings,
`limit` and `offset` optional numbers. -/
structure AuditLogFilters where
  user_id : Option String
  action_type : Option String
  resource_type : Option String
  date_from : Option String
  date_to : Option String
  limit : Option Nat
  offset : Option Nat
deriving DecidableEq, Repr

/-- `Object.entries(filters)` in field-declaration order. -/
def AuditLogFilters.entries (f : AuditLogFilters) : List (String × JSVal) :=
  [("user_id", jsOfStr f.user_id),
   ("action_type", jsOfStr f.action_type),
   ("resource_type", jsOfStr f.resource_type),
   ("date_from", jsOfStr f.date_from),
   ("date_to", jsOfStr f.date_to),
   ("limit", jsOfNum f.limit),
   ("offset", jsOfNum f.offset)]

/-- The inclusion predicate `v !== undefined && v !== ''` shared by
`useAuditLogs` (line 83) and `buildExportUrl` (line 94). -/
def includeParam : JSVal → Bool
  | .undef => false
  | .str s => s ≠ ""
  | .num _ => true

/-- The `params` object `useAuditLogs` passes to `GET /audit-logs`:
`Object.fromEntries(Object.entries(filters).filter(...))`. -/
def useAuditLogsParams (f : AuditLogFilters) : List (String × JSVal) :=
  f.entries.filter (fun kv => includeParam kv.2)

/-- The `URLSearchParams` contents built by `buildExportUrl`: every
included entry, stringified with `String(v)`. -/
def exportSearchParams (f : AuditLogFilters) : List (String × String) :=
  (f.entries.filter (fun kv => includeParam kv.2)).map
    (fun kv => (kv.1, jsToString kv.2))

/-- One `k=v` fragment of a query string. -/
def searchParamFragment (kv : String × String) : String :=
  kv.1 ++ "=" ++ kv.2

/-- `params.toString()`: the fragments joined with `&`. -/
def searchParamsToString (ps : List (String × String)) : String :=
  String.intercalate "&" (ps.map searchParamFragment)

/-- `buildExportUrl` (`adminApi.ts` lines 91-98). -/
def buildExportUrl (f : AuditLogFilters) : String :=
  let qs := searchParamsToString (exportSearchParams f)
  "/api/audit-logs/export" ++ (if qs = "" then "" else "?" ++ qs)

/-! ## Authentication state and the admin route guard (C6, C10)

`src/frontend/src/contexts/SessionContext.tsx` holds the `AuthProvider`
(token storage, user fetch, refresh, logout); `src/unnamed/part_003` is
the role-aware `ProtectedRoute` component used by the admin routes. -/

inductive Role where
  | doctor
  | admin
deriving DecidableEq, Repr

/-- The `User` object assembled by `fetchUser`
(`SessionContext.tsx` lines 73-87). -/
structure AuthUser where
  id : String
  name : String
  email : String
  role : Role
deriving DecidableEq, Repr

/-- The role derivation of `fetchUser` line 82:
`resp.data.roles?.includes('admin') ? 'admin' : 'doctor'`;
a missing `roles` claim (`none`) is falsy and yields `doctor`. -/
def deriveRole (roles : Option (List String)) : Role :=
  match roles with
  | some rs => if "admin" ∈ rs then .admin else .doctor
  | none => .doctor

/-- The slice of `AuthState` that `ProtectedRoute` reads
(`src/unnamed/part_003` line 12). -/
structure AuthViewState where
  user : Option AuthUser
  isAuthenticated : Bool
  isLoading : Bool
deriving DecidableEq, Repr

/-- `user?.role` as read on `src/unnamed/part_003` line 26. -/
def AuthViewState.userRole (st : AuthViewState) : Option Role :=
  st.user.map AuthUser.role

/-- What the `ProtectedRoute` component returns. -/
inductive RenderResult where
  | loadingIndicator
  | navigateLogin
  | accessDenied
  | childrenContent
deriving DecidableEq, Repr

/-- The role-aware `ProtectedRoute` (`src/unnamed/part_003` lines 11-45):
loading indicator while `isLoading`; redirect to `/login` when not
authenticated; the Access Denied card when an admin role is required but
`user?.role !== 'admin'`; otherwise the protected children. -/
def protectedRoute (requiredRole : Option Role) (st : AuthViewState) : RenderResult :=
  if st.isLoading then .loadingIndicator
  else if !st.isAuthenticated then .navigateLogin
  else if requiredRole = some .admin ∧ st.userRole ≠ some .admin then .accessDenied
  else .childrenContent

/-! ## Browser token storage and the AuthProvider paths (C10)

`SessionContext.tsx`: `setTokens` (lines 60-65) writes the access token to
`sessionStorage` and `localStorage` and the refresh token to
`sessionStorage` only; `clearTokens` (lines 67-71) removes
`access_token` and `refresh_token` from `sessionStorage` and
`access_token` from `localStorage`.  The `AuthProvider` paths that change
the tokens or `isAuthenticated` are modelled as events of a transition
system over the storage plus the `isAuthenticated` flag. -/

/-- The four storage slots the code touches:
`sessionStorage['access_token']`, `sessionStorage['refresh_token']`,
`localStorage['access_token']`, `localStorage['refresh_token']`. -/
structure BrowserStorage where
  sessionAccess : Option String
  sessionRefresh : Option String
  localAccess : Option String
  localRefresh : Option String
deriving DecidableEq, Repr

/-- `setTokens` (`SessionContext.tsx` lines 60-65): both tokens into
`sessionStorage`, only the access token into `localStorage`. -/
def setTokens (a r : String) (st : BrowserStorage) : BrowserStorage :=
  ⟨some a, some r, some a, st.localRefresh⟩

/-- `clearTokens` (`SessionContext.tsx` lines 67-71): removes both tokens
from `sessionStorage` and the access token from `localStorage`; the
`localStorage` refresh-token slot is not touched. -/
def clearTokens (st : BrowserStorage) : BrowserStorage :=
  ⟨none, none, none, st.localRefresh⟩

/-- No bearer token remains in either browser storage. -/
def noTokens (st : BrowserStorage) : Prop :=
  st.sessionAccess = none ∧ st.sessionRefresh = none ∧
  st.localAccess = none ∧ st.localRefresh = none

/-- The client state the claim is about: the storages plus the
`isAuthenticated` flag of `AuthState`. -/
structure AuthClientState where
  storage : BrowserStorage
  isAuthenticated : Bool
deriving DecidableEq, Repr

/-- The `AuthProvider` paths that touch the tokens or the
`isAuthenticated` flag (`SessionContext.tsx`). -/
inductive AuthEvent where
  /-- Mount `init`: a stored token validates via `fetchUser` (line 113). -/
  | initFetchSuccess
  /-- Mount `init`: refresh succeeded and the new token validates
  (lines 118-124); `refreshAccessToken` called `setTokens`. -/
  | initRefreshSuccess (a r : String)
  /-- Mount `init` falls through: no token, fetch and refresh failed, or
  refresh returned no token (lines 128-129); a failed refresh already ran
  `clearTokens` inside `refreshAccessToken` (line 99), and `init` runs
  `clearTokens` again before setting the unauthenticated state. -/
  | initFailure
  /-- Auto-refresh interval tick that succeeded (lines 139-146):
  `refreshAccessToken` ran `setTokens`; `isAuthenticated` unchanged. -/
  | autoRefreshSuccess (a r : String)
  /-- Auto-refresh interval tick that failed: `refreshAccessToken` ran
  `clearTokens` (line 99) and returned null; the interval handler leaves
  the state unchanged. -/
  | autoRefreshFailure
  /-- `logout` (lines 161-169): `clearTokens`, then the unauthenticated
  state. -/
  | logoutRequested
  /-- `handleCallback` (lines 171-186) whose `fetchUser` succeeded:
  `setTokens`, then `isAuthenticated: !!user` with a user present. -/
  | callbackSuccess (a r : String)
  /-- `handleCallback` whose `fetchUser` returned null: `setTokens` has
  already stored the fresh tokens, then `isAuthenticated: !!user` is
  false; no `clearTokens` runs on this path. -/
  | callbackFetchFailure (a r : String)

/-- One step of the modelled `AuthProvider`. -/
def authStep (st : AuthClientState) : AuthEvent → AuthClientState
  | .initFetchSuccess => ⟨st.storage, true⟩
  | .initRefreshSuccess a r => ⟨setTokens a r st.storage, true⟩
  | .initFailure => ⟨clearTokens st.storage, false⟩
  | .autoRefreshSuccess a r => ⟨setTokens a r st.storage, st.isAuthenticated⟩
  | .autoRefreshFailure => ⟨clearTokens st.storage, st.isAuthenticated⟩
  | .logoutRequested => ⟨clearTokens st.storage, false⟩
  | .callbackSuccess a r => ⟨setTokens a r st.storage, true⟩
  | .callbackFetchFailure a r => ⟨setTokens a r st.storage, false⟩

/-- The pristine client state: empty storages, not authenticated
(the `AuthProvider` initial state, lines 52-58). -/
def authInit : AuthClientState := ⟨⟨none, none, none, none⟩, false⟩

/-- States the modelled `AuthProvider` can reach from the pristine
state. -/
inductive AuthReachable : AuthClientState → Prop where
  | init : AuthReachable authInit
  | step {st : AuthClientState} (e : AuthEvent) :
      AuthReachable st → AuthReachable (authStep st e)

/-! ## Doctor-client launch button and admin terminate button (C1, C5) -/

/-- The `disabled` predicate of each patient row's launch button
(`PatientsPage.tsx` line 144):
`launchingId === p.id || !!activeSession`.  The active session is
abstracted to whether one is present in the `SessionContext`. -/
def launchButtonDisabled (launchingId : Option String) (activeSessionPresent : Bool)
    (patientRowId : String) : Bool :=
  launchingId == some patientRowId || activeSessionPresent

/-- The `disabled` predicate of the admin Force Terminate button
(`src/unnamed/part_000` line 93):
`s.status === 'terminated' || s.status === 'terminating'`. -/
def forceTerminateDisabled (status : String) : Bool :=
  status == "terminated" || status == "terminating"

/-! ## Session state machine (C2, C5)

Modelled from the spec: the Session State Machine of spec section 4.2 and
the Timer Supervisor of section 4.3 belong to the Remote Session
Orchestrator backend, which is not part of the repository (the frontend
calls its endpoints; `SessionsPage` shows "Issue #3" pending).  The
transition table below is section 4.2's table; an invalid input for the
current state is a no-op (section 7).  The doctor client's Extend Session
button (`TimeoutWarning.tsx` lines 30-37) resolves to an activity signal,
modelled as `extendRequest` with the transitions of an activity event. -/

inductive SmEvent where
  | createSucceeded
  | createFailed
  | activity
  | extendRequest
  | idleExpire
  | graceExpire
  | hardExpire
  | endRequest
  | cleanupDone
deriving DecidableEq, Repr

/-- Modelled from the spec: the pure transition function of spec
section 4.2 (missing backend component "Session State Machine");
invalid inputs are no-ops per section 7. -/
def smStep : SessionStatus → SmEvent → SessionStatus
  | .creating, .createSucceeded => .active
  | .creating, .createFailed => .terminated
  | .active, .activity => .active
  | .active, .extendRequest => .active
  | .active, .idleExpire => .idle_warning
  | .idle_warning, .activity => .active
  | .idle_warning, .extendRequest => .active
  | .idle_warning, .graceExpire => .terminating
  | .active, .hardExpire => .terminating
  | .idle_warning, .hardExpire => .terminating
  | .creating, .endRequest => .terminating
  | .active, .endRequest => .terminating
  | .idle_warning, .endRequest => .terminating
  | .terminating, .endRequest => .terminating
  | .terminating, .cleanupDone => .terminated
  | s, _ => s

/-- A session as the Timer Supervisor sees it: its status and its
`started_at` timestamp (milliseconds, like the frontend clocks). -/
structure TimedSession where
  status : SessionStatus
  startedAt : Nat
deriving DecidableEq, Repr

/-- Modelled from the spec: the hard-deadline clock of the Timer
Supervisor (spec sections 4.2, 4.3; missing backend component).  The hard
clock is armed at `started_at + cap`, is never reset by activity, and
fires a `hardExpire` event into the state machine before any later event
or observation is processed. -/
def hardFireIfDue (cap now : Nat) (s : TimedSession) : TimedSession :=
  if s.startedAt + cap ≤ now then ⟨smStep s.status .hardExpire, s.startedAt⟩ else s

/-- Modelled from the spec: a serialized timed run of the per-session
event stream (spec section 5: all events for one session are totally
ordered).  Each trace element is an event with the instant it is
processed; the hard-deadline clock fires first whenever its deadline has
passed. -/
def runTimed (cap : Nat) : TimedSession → List (Nat × SmEvent) → TimedSession
  | s, [] => s
  | s, (t, e) :: rest =>
      let s1 := hardFireIfDue cap t s
      runTimed cap ⟨smStep s1.status e, s1.startedAt⟩ rest

/-- Modelled from the spec: observing the session at instant `now` after
the Timer Supervisor has had the chance to fire the hard clock. -/
def observeTimed (cap now : Nat) (s : TimedSession) : TimedSession :=
  hardFireIfDue cap now s

/-! ## Orchestrator operations (C1, C5)

Modelled from the spec: `CreateSession` and `EndSession` of spec
section 4.4 (missing backend component "Orchestrator Service").  Sessions
carry their doctor and status; the pool is the number of free slots. -/

structure OrchSession where
  doctorId : String
  status : SessionStatus
deriving DecidableEq, Repr

structure OrchState where
  sessions : List OrchSession
  freeSlots : Nat
deriving DecidableEq, Repr

/-- A session of this doctor that is not terminal. -/
def matchesNonTerminal (doctor : String) (s : OrchSession) : Bool :=
  s.doctorId == doctor && !s.status.isTerminal

/-- Modelled from the spec: "fails with AlreadyActive if the doctor
already has a non-terminal session" (section 4.4). -/
def hasNonTerminal (doctor : String) (st : OrchState) : Bool :=
  st.sessions.any (matchesNonTerminal doctor)

inductive CreateError where
  | alreadyActive
  | poolExhausted
deriving DecidableEq, Repr

/-- Modelled from the spec: `CreateSession(doctor, patient)` of
section 4.4 — `AlreadyActive` if the doctor already has a non-terminal
session, `PoolExhausted` if no slot is free, otherwise a new record in
`creating` with a slot reserved.  Concurrent calls are serialized by the
per-doctor exclusivity check (section 5), so a race is two consecutive
applications. -/
def createSession (doctor : String) (st : OrchState) :
    Except CreateError (OrchSession × OrchState) :=
  if hasNonTerminal doctor st then .error .alreadyActive
  else if st.freeSlots = 0 then .error .poolExhausted
  else
    let s : OrchSession := ⟨doctor, .creating⟩
    .ok (s, ⟨s :: st.sessions, st.freeSlots - 1⟩)

/-- The per-doctor exclusivity invariant (spec section 3): at most one
non-terminal session per doctor — the doctors of the non-terminal
sessions are pairwise distinct. -/
abbrev PerDoctorExclusive (st : OrchState) : Prop :=
  ((st.sessions.filter (fun s => !s.status.isTerminal)).map OrchSession.doctorId).Nodup

inductive SessionActor where
  | doctorActor (id : String)
  | adminActor
deriving DecidableEq, Repr

/-- Modelled from the spec: `EndSession` is "accepted from the owning
doctor or any admin" (section 4.4). -/
def authorizedToEnd : SessionActor → OrchSession → Bool
  | .adminActor, _ => true
  | .doctorActor d, s => d == s.doctorId

inductive EndError where
  | forbidden
deriving DecidableEq, Repr

/-- Modelled from the spec: `EndSession(id, actor)` of section 4.4 on the
addressed session record — rejected unless the actor is the owning doctor
or an admin; idempotent if already terminating/terminated; otherwise the
explicit-end event moves any non-terminal status to `terminating`
(section 4.2). -/
def endSession (actor : SessionActor) (s : OrchSession) :
    Except EndError OrchSession :=
  if !authorizedToEnd actor s then .error .forbidden
  else if s.status = .terminating ∨ s.status = .terminated then .ok s
  else .ok ⟨s.doctorId, .terminating⟩

/-! # Theorems -/

/-- C9: for a start timestamp not later than now, `formatDuration`
computes `totalSeconds = (now - startedAt) / 1000` and renders hours and
minutes exactly when `3600 ≤ totalSeconds`, minutes and seconds exactly
when `60 ≤ totalSeconds < 3600`, and seconds only when
`totalSeconds < 60`, with `h = totalSeconds / 3600`,
`m = totalSeconds % 3600 / 60`, `s = totalSeconds % 60`. -/
theorem c9_formatDuration_characterization (nowMs startedAtMs : Nat)
    (h : startedAtMs ≤ nowMs) :
    formatDuration nowMs startedAtMs =
      (if 3600 ≤ (nowMs - startedAtMs) / 1000 then
        s!"{(nowMs - startedAtMs) / 1000 / 3600}h {(nowMs - startedAtMs) / 1000 % 3600 / 60}m"
      else if 60 ≤ (nowMs - startedAtMs) / 1000 then
        s!"{(nowMs - startedAtMs) / 1000 % 3600 / 60}m {(nowMs - startedAtMs) / 1000 % 60}s"
      else s!"{(nowMs - startedAtMs) / 1000 % 60}s") := by
  simp only [formatDuration]
  split_ifs <;> first | rfl | omega

/-- C9 witness: at 3 725 000 elapsed milliseconds the formatter shows
hours and minutes. -/
theorem c9_formatDuration_witness :
    (0 : Nat) ≤ 3725000 ∧ formatDuration 3725000 0 = "1h 2m" := by
  refine ⟨by decide, ?_⟩
  have hc := c9_formatDuration_characterization 3725000 0 (by decide)
  simpa using hc

/-- C4 counterexample: the first client `Session` type names its terminal
status `closed`, which the second client `Session` type does not contain,
and `terminated` is not a status of the first type — so the two types do
not denote the same status set and the terminal status is not named
`terminated` in every `Session` type. -/
theorem c4_statusSets_counterexample :
    "closed" ∈ doctorSessionStatusNames ∧
    "closed" ∉ adminSessionStatusNames ∧
    "terminated" ∉ doctorSessionStatusNames := by decide

/-- C4 amended: the two client `Session` types agree on the four
non-terminal statuses but name the terminal one differently (`closed`
versus `terminated`); the second type's status set equals the spec's
non-virtual state set, and the admin status-badge map is keyed by exactly
that set, terminal status `terminated` included. -/
theorem c4_statusSets_amended :
    doctorSessionStatusNames =
      ["creating", "active", "idle_warning", "terminating"] ++ ["closed"] ∧
    adminSessionStatusNames =
      ["creating", "active", "idle_warning", "terminating"] ++ ["terminated"] ∧
    adminSessionStatusNames = specSessionStatusNames ∧
    (STATUS_VARIANT.map Prod.fst).Perm specSessionStatusNames ∧
    ("terminated", "destructive") ∈ STATUS_VARIANT := by decide

/-- C3 counterexample: a `409 AlreadyActive` response and a remote
execution failure surfaced as `500` produce the identical generic banner
message, so the doctor client does not present `AlreadyActive` distinctly
from a remote-execution failure. -/
theorem c3_launchMessage_counterexample :
    handleLaunchMessage (some 409) = handleLaunchMessage (some 500) ∧
    handleLaunchMessage (some 409) = genericLaunchFailureMessage := by decide

/-- C3 amended: the doctor client distinguishes three causes, but not the
spec's three — a missing status or `404` yields the API-unavailable
message, `429` yields the session-limit message (which advises ending the
existing session), and every other failure, `409 AlreadyActive` and
remote-execution failures alike, yields one generic launch-failure
message; the three messages are pairwise distinct. -/
theorem c3_launchMessage_amended (status : Option Nat) :
    (status = none ∨ status = some 404 →
      handleLaunchMessage status = apiUnavailableMessage) ∧
    (status = some 429 → handleLaunchMessage status = sessionLimitMessage) ∧
    (status ≠ none → status ≠ some 404 → status ≠ some 429 →
      handleLaunchMessage status = genericLaunchFailureMessage) ∧
    apiUnavailableMessage ≠ sessionLimitMessage ∧
    sessionLimitMessage ≠ genericLaunchFailureMessage ∧
    apiUnavailableMessage ≠ genericLaunchFailureMessage := by
  refine ⟨?_, ?_, ?_, by decide, by decide, by decide⟩
  · rintro (rfl | rfl) <;> simp [handleLaunchMessage]
  · rintro rfl
    simp [handleLaunchMessage]
  · intro h1 h2 h3
    simp [handleLaunchMessage, h1, h2, h3]

/-- C3 witness: the theorem applied to an HTTP 429 response. -/
theorem c3_launchMessage_witness :
    handleLaunchMessage (some 429) = sessionLimitMessage :=
  (c3_launchMessage_amended (some 429)).2.1 rfl

/-- C7 counterexample: two invocations of `create-session.ps1` with the
same `-UserName` and `-PatientId` but different `Get-Random` draws return
different session identifiers, so the command is not idempotent. -/
theorem c7_scripts_counterexample :
    createSessionScript "svc_dtx" "patient-123" 10000 ≠
      createSessionScript "svc_dtx" "patient-123" 10001 := by decide

/-- C7 amended: only `cleanup-session.ps1` is idempotent — it returns the
fixed result `OK` for every invocation — while `create-session.ps1` and
`launch-dtx.ps1` build their returned identifier from a fresh
`Get-Random` draw, so a second invocation with the same arguments returns
a different identifier whenever the draws differ. -/
theorem c7_scripts_amended :
    (∀ sid : String, cleanupSessionScript sid = "OK") ∧
    createSessionScript "svc_dtx" "patient-7" 20000 ≠
      createSessionScript "svc_dtx" "patient-7" 20001 ∧
    launchDtxScript "RDS-SESSION-20000" "\\\\fileserver\\dicom\\patient-7" 30000 ≠
      launchDtxScript "RDS-SESSION-20000" "\\\\fileserver\\dicom\\patient-7" 30001 :=
  ⟨fun _ => rfl, by decide, by decide⟩

/-- Helper: in an association list with pairwise-distinct keys, a key
appears among the keys of the filtered list exactly when its value passes
the filter. -/
theorem key_mem_filter_keys_iff {α β : Type} [DecidableEq α] (p : β → Bool)
    (l : List (α × β)) (hnd : (l.map Prod.fst).Nodup) (k : α) (v : β)
    (hmem : (k, v) ∈ l) :
    k ∈ (l.filter (fun kv => p kv.2)).map Prod.fst ↔ p v = true := by
  have huniq := List.inj_on_of_nodup_map hnd
  constructor
  · intro hk
    rcases List.mem_map.mp hk with ⟨kv, hkvmem, hfst⟩
    rcases List.mem_filter.mp hkvmem with ⟨hkvl, hp⟩
    have hkv : kv = (k, v) := huniq hkvl hmem (by simpa using hfst)
    rw [hkv] at hp
    exact hp
  · intro hpv
    exact List.mem_map.mpr ⟨(k, v), List.mem_filter.mpr ⟨hmem, hpv⟩, rfl⟩

/-- Helper: the shared inclusion predicate holds exactly for values that
are neither `undefined` nor the empty string. -/
theorem includeParam_iff (v : JSVal) :
    includeParam v = true ↔ v ≠ .undef ∧ v ≠ .str "" := by
  cases v with
  | undef => simp [includeParam]
  | str s =>
      simp only [includeParam, ne_eq, decide_eq_true_eq]
      constructor
      · intro h
        exact ⟨by simp, by simpa using h⟩
      · intro h
        simpa using h.2
  | num n => simp [includeParam]

/-- Helper: the keys of the filters object are pairwise distinct. -/
theorem auditFilters_keys_nodup (f : AuditLogFilters) :
    (f.entries.map Prod.fst).Nodup := by
  simp only [AuditLogFilters.entries, List.map_cons, List.map_nil]
  decide

/-- C8: `buildExportUrl` includes a query parameter for a key exactly when
its value is neither `undefined` nor the empty string — the same
inclusion predicate and hence the same parameter keys as the `params`
object `useAuditLogs` sends for the displayed list view — and the export
URL is rooted at `/api/audit-logs/export`. -/
theorem c8_export_matches_query (f : AuditLogFilters) :
    (exportSearchParams f).map Prod.fst = (useAuditLogsParams f).map Prod.fst ∧
    (∀ k v, (k, v) ∈ f.entries →
      ((k ∈ (exportSearchParams f).map Prod.fst) ↔ (v ≠ .undef ∧ v ≠ .str ""))) ∧
    (∃ suffix, buildExportUrl f = "/api/audit-logs/export" ++ suffix) := by
  have hkeys : (exportSearchParams f).map Prod.fst =
      (f.entries.filter (fun kv => includeParam kv.2)).map Prod.fst := by
    simp [exportSearchParams, List.map_map, Function.comp]
  refine ⟨?_, ?_, ⟨_, rfl⟩⟩
  · rw [hkeys]
    rfl
  · intro k v hmem
    rw [hkeys, key_mem_filter_keys_iff includeParam f.entries
      (auditFilters_keys_nodup f) k v hmem]
    exact includeParam_iff v

/-- C8 witness: for a filters object with `user_id` set, an empty
`date_to` and `offset` zero, the `user_id` key is included. -/
theorem c8_export_witness :
    ("user_id", JSVal.str "u1") ∈
      (⟨some "u1", none, none, none, some "", none, some 0⟩ : AuditLogFilters).entries ∧
    ((("user_id" : String) ∈
        (exportSearchParams ⟨some "u1", none, none, none, some "", none, some 0⟩).map Prod.fst) ↔
      (JSVal.str "u1" ≠ .undef ∧ JSVal.str "u1" ≠ .str "")) :=
  ⟨by decide,
   (c8_export_matches_query ⟨some "u1", none, none, none, some "", none, some 0⟩).2.1
     "user_id" (JSVal.str "u1") (by decide)⟩

/-- C6 counterexample: the `AuthProvider` initial state (no user, not
authenticated, loading) is an unauthenticated authentication state on
which the admin route guard renders the loading indicator, not the
`/login` redirect. -/
theorem c6_adminGuard_counterexample :
    (⟨none, false, true⟩ : AuthViewState).isAuthenticated = false ∧
    protectedRoute (some .admin) ⟨none, false, true⟩ = .loadingIndicator ∧
    RenderResult.loadingIndicator ≠ RenderResult.navigateLogin := by decide

/-- C6 amended: once the initial loading check has completed
(`isLoading` false), the admin route guard renders the protected children
exactly when the user is authenticated with role `admin`; an
unauthenticated user is redirected to `/login`; an authenticated
non-admin gets only the Access Denied card; and the role is derived as
`admin` exactly when the identity provider's roles claim contains
`admin`, otherwise `doctor`.  While the initial check is still loading, a
loading indicator is rendered instead. -/
theorem c6_adminGuard_amended (st : AuthViewState) (h : st.isLoading = false) :
    (protectedRoute (some .admin) st = .childrenContent ↔
      st.isAuthenticated = true ∧ st.userRole = some .admin) ∧
    (st.isAuthenticated = false → protectedRoute (some .admin) st = .navigateLogin) ∧
    (st.isAuthenticated = true → st.userRole ≠ some .admin →
      protectedRoute (some .admin) st = .accessDenied) ∧
    (∀ roles : List String, deriveRole (some roles) = .admin ↔ "admin" ∈ roles) ∧
    deriveRole none = .doctor := by
  refine ⟨?_, ?_, ?_, ?_, rfl⟩
  · by_cases hauth : st.isAuthenticated = true
    · by_cases hrole : st.userRole = some .admin
      · simp [protectedRoute, h, hauth, hrole]
      · simp [protectedRoute, h, hauth, hrole]
    · simp only [Bool.not_eq_true] at hauth
      simp [protectedRoute, h, hauth]
  · intro hauth
    simp [protectedRoute, h, hauth]
  · intro hauth hrole
    simp [protectedRoute, h, hauth, hrole]
  · intro roles
    by_cases hmem : "admin" ∈ roles
    · simp [deriveRole, hmem]
    · simp [deriveRole, hmem]

/-- C6 witness: an authenticated admin user in the settled state is shown
the protected children. -/
theorem c6_adminGuard_witness :
    protectedRoute (some .admin)
      ⟨some ⟨"u1", "Ana", "ana@clinic.example", .admin⟩, true, false⟩ = .childrenContent :=
  ((c6_adminGuard_amended
      ⟨some ⟨"u1", "Ana", "ana@clinic.example", .admin⟩, true, false⟩ rfl).1).mpr
    (by decide)

/-- Helper: no reachable `AuthProvider` state ever has a refresh token in
`localStorage` — `setTokens` writes only the access token there. -/
theorem authReachable_localRefresh_none {st : AuthClientState}
    (h : AuthReachable st) : st.storage.localRefresh = none := by
  induction h with
  | init => rfl
  | step e _ ih => cases e <;> simp [authStep, setTokens, clearTokens, ih]

/-- C10 counterexample: the reachable state after a `handleCallback`
whose user fetch failed is unauthenticated, yet the just-stored access
token remains in `localStorage` (and both tokens in `sessionStorage`) —
so not every path ending unauthenticated clears the storages, and the
claimed invariant fails. -/
theorem c10_tokens_counterexample :
    AuthReachable (authStep authInit (.callbackFetchFailure "tok" "ref")) ∧
    (authStep authInit (.callbackFetchFailure "tok" "ref")).isAuthenticated = false ∧
    (authStep authInit (.callbackFetchFailure "tok" "ref")).storage.localAccess = some "tok" ∧
    (authStep authInit (.callbackFetchFailure "tok" "ref")).storage.sessionAccess = some "tok" :=
  ⟨AuthReachable.step (.callbackFetchFailure "tok" "ref") AuthReachable.init,
   by decide, by decide, by decide⟩

/-- C10 amended: explicit logout, a failed token refresh, and failed
initialization all run `clearTokens`, which removes every token the app
ever writes — both tokens from `sessionStorage` and the access token from
`localStorage`; since no reachable state holds a refresh token in
`localStorage`, these three paths leave no bearer token in either
storage, and logout and failed initialization end unauthenticated.  The
invariant is not universal: a callback whose user fetch fails ends
unauthenticated with tokens still stored. -/
theorem c10_clearingPaths_amended (st : AuthClientState) (h : AuthReachable st) :
    noTokens (authStep st .logoutRequested).storage ∧
    (authStep st .logoutRequested).isAuthenticated = false ∧
    noTokens (authStep st .initFailure).storage ∧
    (authStep st .initFailure).isAuthenticated = false ∧
    noTokens (authStep st .autoRefreshFailure).storage := by
  have hl := authReachable_localRefresh_none h
  simp [authStep, clearTokens, noTokens, hl]

/-- C10 witness: the clearing paths applied to the pristine state. -/
theorem c10_clearingPaths_witness :
    AuthReachable authInit ∧ noTokens (authStep authInit .logoutRequested).storage :=
  ⟨AuthReachable.init, (c10_clearingPaths_amended authInit AuthReachable.init).1⟩

/-- Helper: end authorization only reads the session's doctor id, never
its status. -/
theorem authorizedToEnd_status_irrel (a : SessionActor) (s : OrchSession)
    (st : SessionStatus) :
    authorizedToEnd a ⟨s.doctorId, st⟩ = authorizedToEnd a s := by
  cases a <;> rfl

/-- C5: `EndSession` accepted from the owning doctor or any admin is
idempotent — on a session already `terminating` or `terminated` it
succeeds and leaves the session unchanged, and applying it twice yields
the same result as applying it once; the admin client mirrors this by
disabling Force Terminate exactly on `terminated`/`terminating`, and both
clients end a session through `DELETE /api/sessions/{id}`. -/
theorem c5_endSession_idempotent (a : SessionActor) (s : OrchSession)
    (hauth : authorizedToEnd a s = true) :
    ((s.status = .terminating ∨ s.status = .terminated) → endSession a s = .ok s) ∧
    (∀ s', endSession a s = .ok s' → endSession a s' = .ok s') ∧
    (∀ status : String, forceTerminateDisabled status = true ↔
      (status = "terminated" ∨ status = "terminating")) := by
  refine ⟨?_, ?_, ?_⟩
  · intro hterm
    simp [endSession, hauth, hterm]
  · intro s' h1
    by_cases hterm : s.status = .terminating ∨ s.status = .terminated
    · have hs : s' = s := by
        simp [endSession, hauth, hterm] at h1
        exact h1.symm
      rw [hs]
      simp [endSession, hauth, hterm]
    · have hs : s' = ⟨s.doctorId, .terminating⟩ := by
        simp [endSession, hauth, hterm] at h1
        exact h1.symm
      rw [hs]
      simp [endSession, authorizedToEnd_status_irrel, hauth]
  · intro status
    simp [forceTerminateDisabled]

/-- C5 witness: an admin ending an already-terminating session gets
success with the session unchanged. -/
theorem c5_endSession_witness :
    authorizedToEnd .adminActor ⟨"doc1", .terminating⟩ = true ∧
    endSession .adminActor ⟨"doc1", .terminating⟩ = .ok ⟨"doc1", .terminating⟩ :=
  ⟨rfl, (c5_endSession_idempotent .adminActor ⟨"doc1", .terminating⟩ rfl).1 (Or.inl rfl)⟩

/-- C1: under the per-doctor exclusivity invariant, a successful
`CreateSession` preserves the invariant (the new `creating` record is the
doctor's only non-terminal session) and a second `CreateSession` from the
same doctor — the serialized loser of a race — fails with
`AlreadyActive`; on the doctor client every launch button is disabled
whenever an active session exists. -/
theorem c1_perDoctorExclusivity (doctor : String) (st : OrchState)
    (hinv : PerDoctorExclusive st) :
    (∀ s st', createSession doctor st = .ok (s, st') →
      PerDoctorExclusive st' ∧ createSession doctor st' = .error .alreadyActive) ∧
    (∀ (launchingId : Option String) (patientRowId : String),
      launchButtonDisabled launchingId true patientRowId = true) := by
  constructor
  · intro s st' hc
    by_cases h1 : hasNonTerminal doctor st = true
    · simp [createSession, h1] at hc
    · by_cases h2 : st.freeSlots = 0
      · simp [createSession, h1, h2] at hc
      · simp only [createSession, h1, Bool.false_eq_true, if_false, h2, if_neg,
          not_false_iff, Except.ok.injEq, Prod.mk.injEq] at hc
        obtain ⟨hs, hst'⟩ := hc
        subst hst'
        constructor
        · have hna : ∀ x ∈ st.sessions, matchesNonTerminal doctor x = false := by
            intro x hx
            by_contra hcontra
            have hxT : matchesNonTerminal doctor x = true := by
              cases hxv : matchesNonTerminal doctor x
              · exact absurd hxv hcontra
              · rfl
            exact h1 (List.any_eq_true.mpr ⟨x, hx, hxT⟩)
          simp only [PerDoctorExclusive, List.filter_cons]
          have : (!SessionStatus.isTerminal .creating) = true := rfl
          simp only [this, if_pos, List.map_cons, List.nodup_cons]
          constructor
          · intro hmem
            rcases List.mem_map.mp hmem with ⟨x, hxf, hxd⟩
            rcases List.mem_filter.mp hxf with ⟨hxl, hxnt⟩
            have := hna x hxl
            simp only [matchesNonTerminal, Bool.and_eq_false_iff] at this
            rcases this with hdne | hterm
            · rw [hxd] at hdne
              simp at hdne
            · rw [hterm] at hxnt
              cases hxnt
          · exact hinv
        · simp [createSession, hasNonTerminal, matchesNonTerminal, SessionStatus.isTerminal]
  · intro launchingId patientRowId
    simp [launchButtonDisabled]

/-- C1 witness: from an empty state with one free slot, the doctor's
first create succeeds and the serialized second create fails with
`AlreadyActive`. -/
theorem c1_perDoctorExclusivity_witness :
    PerDoctorExclusive ⟨[], 1⟩ ∧
    (PerDoctorExclusive (⟨[⟨"doc1", .creating⟩], 0⟩ : OrchState) ∧
      createSession "doc1" ⟨[⟨"doc1", .creating⟩], 0⟩ = .error .alreadyActive) :=
  ⟨by decide,
   (c1_perDoctorExclusivity "doc1" ⟨[], 1⟩ (by decide)).1
     ⟨"doc1", .creating⟩ ⟨[⟨"doc1", .creating⟩], 0⟩ rfl⟩

/-- Helper: a timed run never changes the session's `started_at`. -/
theorem runTimed_startedAt (cap : Nat) (s : TimedSession)
    (trace : List (Nat × SmEvent)) :
    (runTimed cap s trace).startedAt = s.startedAt := by
  induction trace generalizing s with
  | nil => rfl
  | cons te rest ih =>
      obtain ⟨t, e⟩ := te
      rw [runTimed, ih]
      simp only [hardFireIfDue]
      split <;> rfl

/-- Helper: no transition produces the `creating` status from a
non-`creating` status. -/
theorem smStep_ne_creating (s : SessionStatus) (e : SmEvent)
    (h : s ≠ .creating) : smStep s e ≠ .creating := by
  cases s <;> cases e <;> simp_all [smStep]

/-- Helper: a timed run from a non-`creating` status stays
non-`creating`. -/
theorem runTimed_ne_creating (cap : Nat) (s : TimedSession)
    (trace : List (Nat × SmEvent)) (h : s.status ≠ .creating) :
    (runTimed cap s trace).status ≠ .creating := by
  induction trace generalizing s with
  | nil => exact h
  | cons te rest ih =>
      obtain ⟨t, e⟩ := te
      rw [runTimed]
      apply ih
      apply smStep_ne_creating
      simp only [hardFireIfDue]
      split
      · exact smStep_ne_creating s.status .hardExpire h
      · exact h

/-- C2: once a session that reached `active` is older than the hard cap,
the Timer Supervisor's hard-deadline clock — never reset by activity —
has fired, and no event sequence (activity pings, the client's Extend
Session action, or anything else) leaves it in a live state: observed
past the cap it is `terminating` or already `terminated`. -/
theorem c2_hardDeadlineWins (cap now : Nat) (s0 : TimedSession)
    (trace : List (Nat × SmEvent)) (hactive : s0.status = .active)
    (hcap : s0.startedAt + cap ≤ now) :
    (observeTimed cap now (runTimed cap s0 trace)).status = .terminating ∨
    (observeTimed cap now (runTimed cap s0 trace)).status = .terminated := by
  have hstart : (runTimed cap s0 trace).startedAt = s0.startedAt :=
    runTimed_startedAt cap s0 trace
  have hnc : (runTimed cap s0 trace).status ≠ .creating :=
    runTimed_ne_creating cap s0 trace (by rw [hactive]; intro hcon; cases hcon)
  unfold observeTimed hardFireIfDue
  rw [hstart, if_pos hcap]
  cases hr : (runTimed cap s0 trace).status with
  | creating => exact absurd hr hnc
  | active => left; rfl
  | idle_warning => left; rfl
  | terminating => left; rfl
  | terminated => right; rfl

/-- C2 witness: a session created at time 0 with a one-hour cap, kept
busy by activity and two Extend Session clicks, is no longer live when
observed past the cap. -/
theorem c2_hardDeadlineWins_witness :
    (⟨.active, 0⟩ : TimedSession).status = .active ∧ 0 + 3600000 ≤ 3600001 ∧
    ((observeTimed 3600000 3600001 (runTimed 3600000 ⟨.active, 0⟩
        [(1000, .activity), (3599999, .extendRequest), (3600000, .extendRequest)])).status =
        .terminating ∨
      (observeTimed 3600000 3600001 (runTimed 3600000 ⟨.active, 0⟩
        [(1000, .activity), (3599999, .extendRequest), (3600000, .extendRequest)])).status =
        .terminated) :=
  ⟨rfl, by decide,
   c2_hardDeadlineWins 3600000 3600001 ⟨.active, 0⟩
     [(1000, .activity), (3599999, .extendRequest), (3600000, .extendRequest)]
     rfl (by decide)⟩

end DentalPortal
